import Mathlib

/-!
Shallow embedding of `src/main.py` (the package-scaffolding script):
the `create_package` routine and the CLI entry point `main`.

Python strings are modelled as Lean `String`.  The filesystem reads, the
HTTP client and the external packaging toolchain (`pip`, `os.system`,
`setup`/`find_packages`) are oracles supplied in an `Env`.  A run of
`create_package` is modelled as the list of observable events it performs,
in order, together with the Python exception it propagates, if any.
File writes are modelled as succeeding: the claims under study assume a
writable project directory.
-/

/-- Python exceptions of the classes this code can raise or catch.
All constructors model subclasses of `Exception` (so `except Exception`
catches every one of them); only `importError` is an `ImportError`. -/
inductive PyError where
  | valueError (msg : String)
  | indexError
  | fileNotFoundError (path : String)
  | importError (msg : String)
  | otherError (msg : String)
deriving DecidableEq

/-- Which errors an `except ImportError:` clause catches. -/
def PyError.isImportError : PyError → Bool
  | .importError _ => true
  | _ => false

/-- Observable events of a run, in program order. -/
inductive Event where
  | fileWrite (path content : String)
  | httpGet (url : String)
  | pipMain (args : List String)
  | sysCall (cmd : String)
  | setupCall (nm : String) (packages : List String)
  | print (msg : String)
deriving DecidableEq

/-- The oracles for everything outside the script itself. -/
structure Env where
  /-- Model of `requests.get url`: returns `(status_code, text)`. -/
  http : String → Nat × String
  /-- Contents of an existing file at a path, `none` when no file exists
  there (`shutil.copyfile` raises, `os.path.isfile` is false). -/
  fsRead : String → Option String
  /-- Whether `import pip` succeeds. -/
  pipImportOk : Bool
  /-- The exception raised by `pip.main`, if any. -/
  pipMainExc : Option PyError
  /-- What `find_packages(where=dir)` returns. -/
  findPackages : String → List String
  /-- The message of the exception raised by the `setup(...)` call, if any. -/
  setupExc : Option String

/-- Python truthiness of an optional-string argument: `None` and `""` are
falsy, every other string is truthy. -/
def pyTruthy : Option String → Bool
  | none => false
  | some s => !s.data.isEmpty

/-- Python `str.lower()` (ASCII letters; the table keys are ASCII). -/
def pyLower (s : String) : String := ⟨s.data.map Char.toLower⟩

/-- The whitespace characters stripped by Python `str.strip()`: exactly
the characters on which `str.isspace()` holds — tab through carriage
return (`\x09`-`\x0d`), space, the file/group/record/unit separators
(`\x1c`-`\x1f`), next line (`\x85`), no-break space (`\xa0`), ogham
space mark (`\u1680`), the en-quad through hair-space block
(`\u2000`-`\u200a`), line and paragraph separators (`\u2028`,
`\u2029`), narrow no-break space (`\u202f`), medium mathematical space
(`\u205f`) and ideographic space (`\u3000`). -/
def isPySpace (c : Char) : Bool :=
  c == ' ' || c == '\t' || c == '\n' || c == '\r' || c == '\x0b' || c == '\x0c' ||
  c == '\x1c' || c == '\x1d' || c == '\x1e' || c == '\x1f' || c == '\x85' ||
  c == '\xa0' || c == '\u1680' || c == '\u2000' || c == '\u2001' ||
  c == '\u2002' || c == '\u2003' || c == '\u2004' || c == '\u2005' ||
  c == '\u2006' || c == '\u2007' || c == '\u2008' || c == '\u2009' ||
  c == '\u200a' || c == '\u2028' || c == '\u2029' || c == '\u202f' ||
  c == '\u205f' || c == '\u3000'

/-- Python `str.strip()` on a character list. -/
def pyStripList (l : List Char) : List Char :=
  ((l.dropWhile isPySpace).reverse.dropWhile isPySpace).reverse

/-- Python `str.strip()`. -/
def pyStrip (s : String) : String := ⟨pyStripList s.data⟩

/-- The line boundaries recognized by Python `str.splitlines()`. -/
def isPyLineBreak (c : Char) : Bool :=
  c == '\n' || c == '\r' || c == '\x0b' || c == '\x0c' || c == '\x1c' ||
  c == '\x1d' || c == '\x1e' || c == '\x85' || c == '\u2028' || c == '\u2029'

/-- Python `s.splitlines()[0]` as a partial operation: `none` models the
`IndexError` on the empty string (whose `splitlines()` is `[]`); otherwise
the first line is the prefix before the first line boundary. -/
def pySplitlinesHead (s : String) : Option String :=
  if s.data.isEmpty then none
  else some ⟨s.data.takeWhile (fun c => !isPyLineBreak c)⟩

/-- Python `s.split('=')` on a character list: split at every `'='`,
keeping empty pieces; the result is never empty. -/
def splitOnEq : List Char → List (List Char)
  | [] => [[]]
  | c :: cs =>
    if c = '=' then [] :: splitOnEq cs
    else
      match splitOnEq cs with
      | [] => [[c]]
      | g :: gs => (c :: g) :: gs

/-- Python `s.split('=')`. -/
def pySplitEq (s : String) : List String := (splitOnEq s.data).map fun l => ⟨l⟩

/-- Whether a string starts with `'/'` (posix `os.path.join` absolute check). -/
def strStartsWithSlash (s : String) : Bool :=
  match s.data with
  | [] => false
  | c :: _ => c == '/'

/-- Whether a string ends with `'/'`. -/
def strEndsWithSlash (s : String) : Bool :=
  match s.data.getLast? with
  | some c => c == '/'
  | none => false

/-- Posix `os.path.join` on two components. -/
def osPathJoin (a b : String) : String :=
  if strStartsWithSlash b then b
  else if a.data.isEmpty || strEndsWithSlash a then a ++ b
  else a ++ "/" ++ b

/-- The fixed three-entry license table `LICENSE_TEMPLATES` of `main.py`. -/
def LICENSE_TEMPLATES : List (String × String) :=
  [("mit", "https://raw.githubusercontent.com/OpenSourceInitiative/licenses/master/MIT"),
   ("apache-2.0", "https://raw.githubusercontent.com/apache/licenses/master/LICENSE-2.0"),
   ("gpl-3.0", "https://raw.githubusercontent.com/tldr-pages/tldr/master/licenses/gpl-3.0.md")]

/-- Association-list lookup, modelling Python `dict.get` on the table. -/
def lookupStr : List (String × String) → String → Option String
  | [], _ => none
  | (k, v) :: rest, key => if key = k then some v else lookupStr rest key

/-- Model of `LICENSE_TEMPLATES.get(key)`. -/
def licenseTemplatesGet (key : String) : Option String :=
  lookupStr LICENSE_TEMPLATES key

/-- The `# Create LICENSE file` block of `create_package` (lines 31-39):
events performed and the exception raised, if any.  Mirrors:
`if license_type:`; `LICENSE_TEMPLATES.get(license_type.lower())`;
`raise ValueError(f"Invalid license type: {license_type}")` when absent;
`requests.get`; `raise ValueError(f"Failed to fetch ...")` on a
non-200 status; otherwise write the response text to `LICENSE`. -/
def licenseStep (env : Env) (project_dir : String) (license_type : Option String) :
    List Event × Option PyError :=
  if pyTruthy license_type then
    let lt := license_type.getD ""
    match licenseTemplatesGet (pyLower lt) with
    | none => ([], some (.valueError ("Invalid license type: " ++ lt)))
    | some url =>
      if (env.http url).1 ≠ 200 then
        ([.httpGet url],
         some (.valueError ("Failed to fetch license template from " ++ url)))
      else
        ([.httpGet url, .fileWrite (osPathJoin project_dir "LICENSE") (env.http url).2],
         none)
  else ([], none)

/-- The `# Create README.md file` block (lines 41-47): copy the source
file when `readme_path` is truthy (`FileNotFoundError` when it does not
exist), otherwise synthesize
`f"# {toml_content.splitlines()[0].split('=')[1].strip()}"`, raising
`IndexError` when `splitlines()` is empty or the first line has no `'='`. -/
def readmeStep (env : Env) (project_dir toml_content : String)
    (readme_path : Option String) : List Event × Option PyError :=
  let readme_file := osPathJoin project_dir "README.md"
  if pyTruthy readme_path then
    match env.fsRead (readme_path.getD "") with
    | none => ([], some (.fileNotFoundError (readme_path.getD "")))
    | some content => ([.fileWrite readme_file content], none)
  else
    match pySplitlinesHead toml_content with
    | none => ([], some .indexError)
    | some line =>
      match (pySplitEq line)[1]? with
      | none => ([], some .indexError)
      | some v => ([.fileWrite readme_file ("# " ++ pyStrip v)], none)

/-- The `# Ensure pip and setuptools are up-to-date` block (lines 49-54):
`try: import pip; pip.main([...]) except ImportError: print(warning)`.
Only `ImportError` is caught; any other exception from `pip.main`
propagates. -/
def pipStep (env : Env) : List Event × Option PyError :=
  if env.pipImportOk then
    match env.pipMainExc with
    | none => ([.pipMain ["install", "-U", "pip", "setuptools"]], none)
    | some e =>
      if e.isImportError then
        ([.pipMain ["install", "-U", "pip", "setuptools"],
          .print "Warning: pip or setuptools is not installed. Package creation might fail."],
         none)
      else ([.pipMain ["install", "-U", "pip", "setuptools"]], some e)
  else
    ([.print "Warning: pip or setuptools is not installed. Package creation might fail."],
     none)

/-- The `# Generate distribution files` block (lines 56-65):
`os.system(...)`, then `setup(name=find_packages(where=dir)[0],
packages=find_packages(where=dir))` inside `try ... except Exception as e`,
which catches everything (the `IndexError` from an empty package list and
any exception from `setup`) and prints the message.  Never raises. -/
def buildStep (env : Env) (project_dir : String) : List Event :=
  let sys := Event.sysCall "py -m pip install --upgrade build"
  match env.findPackages project_dir with
  | [] => [sys, .print "Error generating distribution files: list index out of range"]
  | nm :: rest =>
    match env.setupExc with
    | some msg =>
      [sys, .setupCall nm (nm :: rest),
       .print ("Error generating distribution files: " ++ msg)]
    | none => [sys, .setupCall nm (nm :: rest)]

/-- The outcome of a run: the events performed, in order, and the
exception that propagated out of `create_package`, if any. -/
structure RunResult where
  events : List Event
  error : Option PyError
deriving DecidableEq

/-- Model of `create_package(project_dir, toml_content, license_type, readme_path)`
(lines 15-67): write `pyproject.toml` verbatim, then the license block,
the README block, the pip block, the build block, and finally
`print(f"Package created successfully in: {project_dir}")`.  The run
stops at the first propagating exception. -/
def create_package (env : Env) (project_dir toml_content : String)
    (license_type readme_path : Option String) : RunResult :=
  let manifest := Event.fileWrite (osPathJoin project_dir "pyproject.toml") toml_content
  let lic := licenseStep env project_dir license_type
  match lic.2 with
  | some e => ⟨manifest :: lic.1, some e⟩
  | none =>
    let rd := readmeStep env project_dir toml_content readme_path
    match rd.2 with
    | some e => ⟨manifest :: (lic.1 ++ rd.1), some e⟩
    | none =>
      let pp := pipStep env
      match pp.2 with
      | some e => ⟨manifest :: (lic.1 ++ rd.1 ++ pp.1), some e⟩
      | none =>
        ⟨manifest :: (lic.1 ++ rd.1 ++ pp.1 ++ buildStep env project_dir ++
           [.print ("Package created successfully in: " ++ project_dir)]),
         none⟩

/-- The option strings declared on the `argparse` parser in `main`
(besides the positional `project_dir`). -/
def cliOptionNames : List String := ["--toml", "--license", "--readme"]

/-- The arguments `main` obtains from `argparse`. -/
structure ParsedArgs where
  project_dir : String
  toml : String
  license : Option String
  readme : Option String

/-- Lines 87-92 of `main`: the manifest text is the file contents when
`os.path.isfile(args.toml)`, else the literal argument string. -/
def resolveToml (fsRead : String → Option String) (toml : String) : String :=
  match fsRead toml with
  | some content => content
  | none => toml

/-- The call `main` makes into the creation routine, recorded as the list
of argument values it passes. -/
structure CreationCall where
  positional : List String
deriving DecidableEq

/-- Line 94 of `main`: `create_package(args.project_dir, toml_content)` —
only two positional arguments are supplied. -/
def mainCall (fsRead : String → Option String) (args : ParsedArgs) : CreationCall :=
  ⟨[args.project_dir, resolveToml fsRead args.toml]⟩

/-- The contents of the writes a trace performs to path `p`, in order. -/
def writesTo (l : List Event) (p : String) : List String :=
  l.filterMap fun e =>
    match e with
    | .fileWrite q c => if q = p then some c else none
    | _ => none

/-- The URLs of the HTTP GET requests in a trace, in order. -/
def httpGets (l : List Event) : List String :=
  l.filterMap fun e =>
    match e with
    | .httpGet u => some u
    | _ => none

/-- The paths of all file writes in a trace, in order. -/
def writePaths (l : List Event) : List String :=
  l.filterMap fun e =>
    match e with
    | .fileWrite q _ => some q
    | _ => none

/-- Whether an event is a file write. -/
def isFileWrite : Event → Bool
  | .fileWrite _ _ => true
  | _ => false

/-- Whether an event is a call into the packaging toolchain
(`pip.main`, `os.system`, `setup`). -/
def isToolchainCall : Event → Bool
  | .pipMain _ => true
  | .sysCall _ => true
  | .setupCall _ _ => true
  | _ => false

/-- A concrete benign environment used to instantiate witnesses. -/
def envBase : Env :=
  { http := fun _ => (200, "LICENSE TEXT")
    fsRead := fun _ => none
    pipImportOk := true
    pipMainExc := none
    findPackages := fun _ => ["pkg"]
    setupExc := none }

example : (create_package envBase "proj" "name = demo" none none).error = none := by
  decide

example :
    writesTo (create_package envBase "proj" "name = demo" none none).events
      (osPathJoin "proj" "README.md") = ["# demo"] := by
  decide

example :
    httpGets (create_package envBase "proj" "x=y" (some "MIT") none).events =
      ["https://raw.githubusercontent.com/OpenSourceInitiative/licenses/master/MIT"] := by
  decide

theorem string_append_cancel {a b c : String} (h : a ++ b = a ++ c) : b = c := by
  have hd := congrArg String.data h
  simp [String.data_append] at hd
  exact String.ext hd

theorem osPathJoin_ne_of_ne {n₁ n₂ : String} (a : String)
    (h₁ : strStartsWithSlash n₁ = false) (h₂ : strStartsWithSlash n₂ = false)
    (hne : n₁ ≠ n₂) : osPathJoin a n₁ ≠ osPathJoin a n₂ := by
  unfold osPathJoin
  simp only [h₁, h₂, Bool.false_eq_true, if_false]
  split
  · intro h
    exact hne (string_append_cancel h)
  · intro h
    exact hne (string_append_cancel (a := a ++ "/") h)

theorem LICENSE_ne_pyproject (pd : String) :
    osPathJoin pd "LICENSE" ≠ osPathJoin pd "pyproject.toml" :=
  osPathJoin_ne_of_ne pd (by decide) (by decide) (by decide)

theorem README_ne_pyproject (pd : String) :
    osPathJoin pd "README.md" ≠ osPathJoin pd "pyproject.toml" :=
  osPathJoin_ne_of_ne pd (by decide) (by decide) (by decide)

theorem LICENSE_ne_README (pd : String) :
    osPathJoin pd "LICENSE" ≠ osPathJoin pd "README.md" :=
  osPathJoin_ne_of_ne pd (by decide) (by decide) (by decide)

theorem writesTo_nil (p : String) : writesTo [] p = [] := rfl

theorem writesTo_append (l₁ l₂ : List Event) (p : String) :
    writesTo (l₁ ++ l₂) p = writesTo l₁ p ++ writesTo l₂ p := by
  simp [writesTo, List.filterMap_append]

theorem writesTo_cons_write (q c : String) (l : List Event) (p : String) :
    writesTo (.fileWrite q c :: l) p = (if q = p then [c] else []) ++ writesTo l p := by
  simp only [writesTo, List.filterMap_cons]
  split <;> simp_all

theorem writesTo_cons_get (u : String) (l : List Event) (p : String) :
    writesTo (.httpGet u :: l) p = writesTo l p := by
  simp [writesTo, List.filterMap_cons]

theorem writesTo_cons_print (m : String) (l : List Event) (p : String) :
    writesTo (.print m :: l) p = writesTo l p := by
  simp [writesTo, List.filterMap_cons]

theorem httpGets_nil : httpGets [] = [] := rfl

theorem httpGets_append (l₁ l₂ : List Event) :
    httpGets (l₁ ++ l₂) = httpGets l₁ ++ httpGets l₂ := by
  simp [httpGets, List.filterMap_append]

theorem licenseStep_writesTo (env : Env) (pd : String) (lt : Option String) (p : String)
    (hp : osPathJoin pd "LICENSE" ≠ p) :
    writesTo (licenseStep env pd lt).1 p = [] := by
  simp only [licenseStep]
  split
  · split
    · rfl
    · split
      · rfl
      · simp [writesTo, hp]
  · rfl

theorem readmeStep_writesTo (env : Env) (pd toml : String) (rp : Option String) (p : String)
    (hp : osPathJoin pd "README.md" ≠ p) :
    writesTo (readmeStep env pd toml rp).1 p = [] := by
  simp only [readmeStep]
  split
  · split
    · rfl
    · simp [writesTo, hp]
  · split
    · rfl
    · split
      · rfl
      · simp [writesTo, hp]

theorem pipStep_writesTo (env : Env) (p : String) :
    writesTo (pipStep env).1 p = [] := by
  simp only [pipStep]
  split
  · split
    · rfl
    · split <;> rfl
  · rfl

theorem buildStep_writesTo (env : Env) (pd : String) (p : String) :
    writesTo (buildStep env pd) p = [] := by
  simp only [buildStep]
  split
  · rfl
  · split <;> rfl

theorem readmeStep_httpGets (env : Env) (pd toml : String) (rp : Option String) :
    httpGets (readmeStep env pd toml rp).1 = [] := by
  simp only [readmeStep]
  split
  · split <;> rfl
  · split
    · rfl
    · split <;> rfl

theorem pipStep_httpGets (env : Env) : httpGets (pipStep env).1 = [] := by
  simp only [pipStep]
  split
  · split
    · rfl
    · split <;> rfl
  · rfl

theorem buildStep_httpGets (env : Env) (pd : String) :
    httpGets (buildStep env pd) = [] := by
  simp only [buildStep]
  split
  · rfl
  · split <;> rfl

theorem splitOnEq_no_eq {l : List Char} (h : '=' ∉ l) : splitOnEq l = [l] := by
  induction l with
  | nil => rfl
  | cons c cs ih =>
    have h1 : ¬('=' = c) ∧ '=' ∉ cs := by
      simpa [List.mem_cons, not_or] using h
    have hc : ¬(c = '=') := fun e => h1.1 e.symm
    simp [splitOnEq, hc, ih h1.2]

theorem splitOnEq_append {k : List Char} (v : List Char) (hk : '=' ∉ k) :
    splitOnEq (k ++ '=' :: v) = k :: splitOnEq v := by
  induction k with
  | nil => simp [splitOnEq]
  | cons c cs ih =>
    have h1 : ¬('=' = c) ∧ '=' ∉ cs := by
      simpa [List.mem_cons, not_or] using hk
    have hc : ¬(c = '=') := fun e => h1.1 e.symm
    simp [splitOnEq, hc, ih h1.2]

theorem pySplitEq_get1 {k v : List Char} (hk : '=' ∉ k) (hv : '=' ∉ v) :
    (pySplitEq ⟨k ++ '=' :: v⟩)[1]? = some ⟨v⟩ := by
  simp [pySplitEq, splitOnEq_append v hk, splitOnEq_no_eq hv]

theorem pySplitEq_get1_none {l : List Char} (h : '=' ∉ l) :
    (pySplitEq ⟨l⟩)[1]? = none := by
  simp [pySplitEq, splitOnEq_no_eq h]

theorem licenseStep_noToolchain (env : Env) (pd : String) (lt : Option String) :
    ∀ e ∈ (licenseStep env pd lt).1, isToolchainCall e = false := by
  simp only [licenseStep]
  split
  · split
    · simp
    · split <;> simp [isToolchainCall]
  · simp

theorem readmeStep_noToolchain (env : Env) (pd toml : String) (rp : Option String) :
    ∀ e ∈ (readmeStep env pd toml rp).1, isToolchainCall e = false := by
  simp only [readmeStep]
  split
  · split <;> simp [isToolchainCall]
  · split
    · simp
    · split <;> simp [isToolchainCall]

theorem pipStep_noFileWrite (env : Env) :
    ∀ e ∈ (pipStep env).1, isFileWrite e = false := by
  simp only [pipStep]
  split
  · split
    · simp [isFileWrite]
    · split <;> simp [isFileWrite]
  · simp [isFileWrite]

theorem buildStep_noFileWrite (env : Env) (pd : String) :
    ∀ e ∈ buildStep env pd, isFileWrite e = false := by
  simp only [buildStep]
  split
  · simp [isFileWrite]
  · split <;> simp [isFileWrite]

theorem licenseStep_LICENSE_written (env : Env) (pd : String) (lt : Option String)
    (htr : pyTruthy lt = true) (hok : (licenseStep env pd lt).2 = none) :
    ∃ c, Event.fileWrite (osPathJoin pd "LICENSE") c ∈ (licenseStep env pd lt).1 := by
  revert hok
  simp only [licenseStep, htr, if_true]
  split
  · simp
  · rename_i url heq
    split
    · simp
    · intro _
      exact ⟨(env.http url).2, by simp⟩

theorem writePaths_nil : writePaths [] = [] := rfl

theorem writePaths_append (l₁ l₂ : List Event) :
    writePaths (l₁ ++ l₂) = writePaths l₁ ++ writePaths l₂ := by
  simp [writePaths, List.filterMap_append]

theorem licenseStep_writePaths (env : Env) (pd : String) (lt : Option String) :
    writePaths (licenseStep env pd lt).1 = [] ∨
    writePaths (licenseStep env pd lt).1 = [osPathJoin pd "LICENSE"] := by
  simp only [licenseStep]
  split
  · split
    · exact .inl rfl
    · split
      · exact .inl rfl
      · exact .inr rfl
  · exact .inl rfl

theorem readmeStep_writePaths (env : Env) (pd toml : String) (rp : Option String) :
    writePaths (readmeStep env pd toml rp).1 = [] ∨
    writePaths (readmeStep env pd toml rp).1 = [osPathJoin pd "README.md"] := by
  simp only [readmeStep]
  split
  · split
    · exact .inl rfl
    · exact .inr rfl
  · split
    · exact .inl rfl
    · split
      · exact .inl rfl
      · exact .inr rfl

theorem pipStep_writePaths (env : Env) : writePaths (pipStep env).1 = [] := by
  simp only [pipStep]
  split
  · split
    · rfl
    · split <;> rfl
  · rfl

theorem buildStep_writePaths (env : Env) (pd : String) :
    writePaths (buildStep env pd) = [] := by
  simp only [buildStep]
  split
  · rfl
  · split <;> rfl

theorem httpGets_cons_write (q c : String) (l : List Event) :
    httpGets (.fileWrite q c :: l) = httpGets l := by
  simp [httpGets, List.filterMap_cons]

theorem httpGets_cons_get (u : String) (l : List Event) :
    httpGets (.httpGet u :: l) = u :: httpGets l := by
  simp [httpGets, List.filterMap_cons]

theorem httpGets_cons_print (m : String) (l : List Event) :
    httpGets (.print m :: l) = httpGets l := by
  simp [httpGets, List.filterMap_cons]

theorem writePaths_cons_write (q c : String) (l : List Event) :
    writePaths (.fileWrite q c :: l) = q :: writePaths l := by
  simp [writePaths, List.filterMap_cons]

theorem writePaths_cons_get (u : String) (l : List Event) :
    writePaths (.httpGet u :: l) = writePaths l := by
  simp [writePaths, List.filterMap_cons]

theorem writePaths_cons_print (m : String) (l : List Event) :
    writePaths (.print m :: l) = writePaths l := by
  simp [writePaths, List.filterMap_cons]

theorem create_package_httpGets (env : Env) (pd toml : String)
    (lt rp : Option String) :
    httpGets (create_package env pd toml lt rp).events =
      httpGets (licenseStep env pd lt).1 := by
  have hR := readmeStep_httpGets env pd toml rp
  have hP := pipStep_httpGets env
  have hB := buildStep_httpGets env pd
  simp only [create_package]
  split
  · simp [httpGets_cons_write]
  · split
    · simp [httpGets_cons_write, httpGets_append, hR]
    · split
      · simp [httpGets_cons_write, httpGets_append, hR, hP]
      · simp [httpGets_cons_write, httpGets_append, httpGets_cons_print,
              httpGets_nil, hR, hP, hB]

theorem pyTruthy_of_ne_empty {s : String} (h : s ≠ "") : pyTruthy (some s) = true := by
  simp only [pyTruthy, Bool.not_eq_true']
  cases hd : s.data with
  | nil => exact absurd (String.ext (hd.trans rfl)) h
  | cons c cs => simp

/-- Claim C7: after any run of `create_package`, the writes the trace
performs to `<project_dir>/pyproject.toml` are exactly one write whose
content is the supplied manifest text, unchanged. -/
theorem C7_manifest_written_verbatim (env : Env) (pd toml : String)
    (lt rp : Option String) :
    writesTo (create_package env pd toml lt rp).events
      (osPathJoin pd "pyproject.toml") = [toml] := by
  have hL := licenseStep_writesTo env pd lt _ (LICENSE_ne_pyproject pd)
  have hR := readmeStep_writesTo env pd toml rp _ (README_ne_pyproject pd)
  have hP := pipStep_writesTo env (osPathJoin pd "pyproject.toml")
  have hB := buildStep_writesTo env pd (osPathJoin pd "pyproject.toml")
  simp only [create_package]
  split
  · simp [writesTo_cons_write, hL]
  · split
    · simp [writesTo_cons_write, writesTo_append, hL, hR]
    · split
      · simp [writesTo_cons_write, writesTo_append, hL, hR, hP]
      · simp [writesTo_cons_write, writesTo_append, writesTo_cons_print,
              writesTo_nil, hL, hR, hP, hB]

/-- Claim C1: calling `create_package` with a non-empty license key whose
lowercasing is mapped by the fixed three-entry table issues exactly one
HTTP GET, to exactly the mapped URL; with any other non-empty key it
raises the invalid-license `ValueError` and no network request is made. -/
theorem C1_license_fetch_url (env : Env) (pd toml lt : String)
    (rp : Option String) (hne : lt ≠ "") :
    (∀ url, licenseTemplatesGet (pyLower lt) = some url →
       httpGets (create_package env pd toml (some lt) rp).events = [url]) ∧
    (licenseTemplatesGet (pyLower lt) = none →
       httpGets (create_package env pd toml (some lt) rp).events = [] ∧
       (create_package env pd toml (some lt) rp).error =
         some (.valueError ("Invalid license type: " ++ lt))) := by
  have htr := pyTruthy_of_ne_empty hne
  constructor
  · intro url hurl
    rw [create_package_httpGets]
    simp only [licenseStep, htr, if_true, Option.getD_some, hurl]
    split
    · simp [httpGets_cons_get, httpGets_nil]
    · simp [httpGets_cons_get, httpGets_cons_write, httpGets_nil]
  · intro hnone
    have hstep : licenseStep env pd (some lt) =
        ([], some (.valueError ("Invalid license type: " ++ lt))) := by
      simp [licenseStep, htr, hnone]
    constructor
    · rw [create_package_httpGets, hstep]
      rfl
    · simp only [create_package, hstep]

/-- Witness for C1: the key `"MIT"` (case-insensitive match) leads to a
single GET of exactly the MIT template URL. -/
theorem C1_witness :
    httpGets (create_package envBase "proj" "a = b" (some "MIT") none).events =
      ["https://raw.githubusercontent.com/OpenSourceInitiative/licenses/master/MIT"] :=
  (C1_license_fetch_url envBase "proj" "a = b" "MIT" none (by decide)).1
    "https://raw.githubusercontent.com/OpenSourceInitiative/licenses/master/MIT"
    (by decide)

/-- Claim C4: when the license key is in the table and the HTTP response
status is not 200, `create_package` raises the fetch-failed `ValueError`
and the trace contains no write to `<project_dir>/LICENSE` at all. -/
theorem C4_fetch_failure_aborts (env : Env) (pd toml lt : String)
    (rp : Option String) (url : String) (hne : lt ≠ "")
    (hurl : licenseTemplatesGet (pyLower lt) = some url)
    (hstatus : (env.http url).1 ≠ 200) :
    (create_package env pd toml (some lt) rp).error =
      some (.valueError ("Failed to fetch license template from " ++ url)) ∧
    writesTo (create_package env pd toml (some lt) rp).events
      (osPathJoin pd "LICENSE") = [] := by
  have htr := pyTruthy_of_ne_empty hne
  have hstep : licenseStep env pd (some lt) =
      ([.httpGet url],
       some (.valueError ("Failed to fetch license template from " ++ url))) := by
    simp [licenseStep, htr, hurl, hstatus]
  constructor
  · simp only [create_package, hstep]
  · simp only [create_package, hstep]
    simp [writesTo_cons_write, writesTo_cons_get, writesTo_nil,
          (LICENSE_ne_pyproject pd).symm]

/-- A concrete environment whose HTTP oracle always answers 404. -/
def env404 : Env := { envBase with http := fun _ => (404, "") }

/-- Witness for C4: a 404 on the MIT template aborts with the fetch-failed
error and leaves no LICENSE write in the trace. -/
theorem C4_witness :
    (create_package env404 "proj" "a = b" (some "mit") none).error =
      some (.valueError ("Failed to fetch license template from " ++
        "https://raw.githubusercontent.com/OpenSourceInitiative/licenses/master/MIT")) ∧
    writesTo (create_package env404 "proj" "a = b" (some "mit") none).events
      (osPathJoin "proj" "LICENSE") = [] :=
  C4_fetch_failure_aborts env404 "proj" "a = b" "mit" none
    "https://raw.githubusercontent.com/OpenSourceInitiative/licenses/master/MIT"
    (by decide) (by decide) (by decide)

theorem pySplitEq_get1_none_str (s : String) (h : '=' ∉ s.data) :
    (pySplitEq s)[1]? = none := by
  simp [pySplitEq, splitOnEq_no_eq h]

/-- Claim C2: with a falsy README argument and a manifest whose first line
is `key = value` (one `'='`, splitting it into `key` and `value`), the run
writes `<project_dir>/README.md` exactly once, with content `"# "`
followed by the value with surrounding whitespace stripped.  The license
step is assumed not to abort the run before the README step. -/
theorem C2_readme_synthesized (env : Env) (pd toml : String)
    (lt rp : Option String) (k v : List Char)
    (hline : pySplitlinesHead toml = some ⟨k ++ '=' :: v⟩)
    (hk : '=' ∉ k) (hv : '=' ∉ v)
    (hrp : pyTruthy rp = false)
    (hlic : (licenseStep env pd lt).2 = none) :
    writesTo (create_package env pd toml lt rp).events
      (osPathJoin pd "README.md") = ["# " ++ pyStrip ⟨v⟩] := by
  have hstep : readmeStep env pd toml rp =
      ([.fileWrite (osPathJoin pd "README.md") ("# " ++ pyStrip ⟨v⟩)], none) := by
    simp [readmeStep, hrp, hline, pySplitEq_get1 hk hv]
  have hL := licenseStep_writesTo env pd lt _ (LICENSE_ne_README pd)
  have hP := pipStep_writesTo env (osPathJoin pd "README.md")
  have hB := buildStep_writesTo env pd (osPathJoin pd "README.md")
  simp only [create_package, hlic, hstep]
  split
  · simp [writesTo_cons_write, writesTo_append, writesTo_nil, hL, hP,
          (README_ne_pyproject pd).symm]
  · simp [writesTo_cons_write, writesTo_append, writesTo_cons_print,
          writesTo_nil, hL, hP, hB, (README_ne_pyproject pd).symm]

/-- Witness for C2: manifest `"name = demo"` yields README content
`"# demo"`. -/
theorem C2_witness :
    writesTo (create_package envBase "proj" "name = demo" none none).events
      (osPathJoin "proj" "README.md") = ["# demo"] :=
  C2_readme_synthesized envBase "proj" "name = demo" none none
    "name ".data " demo".data (by decide) (by decide) (by decide) rfl rfl

/-- Claim C8: with a truthy README source path naming an existing file,
the run writes `<project_dir>/README.md` exactly once, with content equal
to the source file's bytes (a round-trip copy).  The license step is
assumed not to abort the run before the README step. -/
theorem C8_readme_copied (env : Env) (pd toml rp : String)
    (lt : Option String) (content : String) (hne : rp ≠ "")
    (hsrc : env.fsRead rp = some content)
    (hlic : (licenseStep env pd lt).2 = none) :
    writesTo (create_package env pd toml lt (some rp)).events
      (osPathJoin pd "README.md") = [content] := by
  have htr := pyTruthy_of_ne_empty hne
  have hstep : readmeStep env pd toml (some rp) =
      ([.fileWrite (osPathJoin pd "README.md") content], none) := by
    simp [readmeStep, htr, hsrc]
  have hL := licenseStep_writesTo env pd lt _ (LICENSE_ne_README pd)
  have hP := pipStep_writesTo env (osPathJoin pd "README.md")
  have hB := buildStep_writesTo env pd (osPathJoin pd "README.md")
  simp only [create_package, hlic, hstep]
  split
  · simp [writesTo_cons_write, writesTo_append, writesTo_nil, hL, hP,
          (README_ne_pyproject pd).symm]
  · simp [writesTo_cons_write, writesTo_append, writesTo_cons_print,
          writesTo_nil, hL, hP, hB, (README_ne_pyproject pd).symm]

/-- A concrete environment in which `readme.src` exists. -/
def envReadme : Env :=
  { envBase with
    fsRead := fun p => if p = "readme.src" then some "# My Project\n" else none }

/-- Witness for C8: copying `readme.src` reproduces its bytes. -/
theorem C8_witness :
    writesTo (create_package envReadme "proj" "a = b" none (some "readme.src")).events
      (osPathJoin "proj" "README.md") = ["# My Project\n"] :=
  C8_readme_copied envReadme "proj" "a = b" "readme.src" none "# My Project\n"
    (by decide) (by decide) rfl

/-- Claim C10: with a falsy README argument and a manifest that is empty
or whose first line has no `'='`, the run propagates an `IndexError` from
the README synthesis, and by then the manifest write — and a LICENSE
write, whenever a truthy license key was given (and the license step
succeeded) — is already in the trace. -/
theorem C10_synthesis_index_error (env : Env) (pd toml : String)
    (lt rp : Option String)
    (hrp : pyTruthy rp = false)
    (hbad : pySplitlinesHead toml = none ∨
      ∃ line, pySplitlinesHead toml = some line ∧ '=' ∉ line.data)
    (hlic : (licenseStep env pd lt).2 = none) :
    (create_package env pd toml lt rp).error = some .indexError ∧
    Event.fileWrite (osPathJoin pd "pyproject.toml") toml ∈
      (create_package env pd toml lt rp).events ∧
    (pyTruthy lt = true → ∃ c,
      Event.fileWrite (osPathJoin pd "LICENSE") c ∈
        (create_package env pd toml lt rp).events) := by
  have hstep : readmeStep env pd toml rp = ([], some .indexError) := by
    rcases hbad with h | ⟨line, hl, hno⟩
    · simp [readmeStep, hrp, h]
    · simp [readmeStep, hrp, hl, pySplitEq_get1_none_str line hno]
  simp only [create_package, hlic, hstep]
  refine ⟨by simp, by simp, ?_⟩
  intro htr
  obtain ⟨c, hc⟩ := licenseStep_LICENSE_written env pd lt htr hlic
  exact ⟨c, by simp [hc]⟩

/-- Witness for C10: a manifest with no `'='` on its first line, with the
MIT license requested and fetched, raises `IndexError` after both the
manifest and LICENSE writes. -/
theorem C10_witness :
    (create_package envBase "proj" "no equals sign" (some "mit") none).error =
      some .indexError ∧
    Event.fileWrite (osPathJoin "proj" "pyproject.toml") "no equals sign" ∈
      (create_package envBase "proj" "no equals sign" (some "mit") none).events ∧
    (pyTruthy (some "mit") = true → ∃ c,
      Event.fileWrite (osPathJoin "proj" "LICENSE") c ∈
        (create_package envBase "proj" "no equals sign" (some "mit") none).events) :=
  C10_synthesis_index_error envBase "proj" "no equals sign" (some "mit") none
    rfl (.inr ⟨"no equals sign", rfl, by decide⟩) (by decide)

/-- Claim C3: the parser declares `--license` and `--readme`, yet the
call `main` makes into the creation routine passes exactly two values —
the project directory and the resolved manifest text — and is invariant
under the parsed license and readme values. -/
theorem C3_cli_args_not_forwarded (f : String → Option String)
    (pd toml : String) (l r : Option String) :
    "--license" ∈ cliOptionNames ∧ "--readme" ∈ cliOptionNames ∧
    (mainCall f ⟨pd, toml, l, r⟩).positional = [pd, resolveToml f toml] ∧
    mainCall f ⟨pd, toml, l, r⟩ = mainCall f ⟨pd, toml, none, none⟩ :=
  ⟨by decide, by decide, rfl, rfl⟩

/-- Claim C6: every run's trace splits into a part with no toolchain call
followed by a part with no file write: all file writes are completed
before any best-effort toolchain call starts. -/
theorem C6_files_before_toolchain (env : Env) (pd toml : String)
    (lt rp : Option String) :
    ∃ a b, (create_package env pd toml lt rp).events = a ++ b ∧
      (∀ e ∈ a, isToolchainCall e = false) ∧
      (∀ e ∈ b, isFileWrite e = false) := by
  have hLt := licenseStep_noToolchain env pd lt
  have hRt := readmeStep_noToolchain env pd toml rp
  have hPw := pipStep_noFileWrite env
  have hBw := buildStep_noFileWrite env pd
  simp only [create_package]
  split
  · refine ⟨_, [], (List.append_nil _).symm, ?_, by simp⟩
    intro e he
    rcases List.mem_cons.mp he with h | h
    · simp [h, isToolchainCall]
    · exact hLt e h
  · split
    · refine ⟨_, [], (List.append_nil _).symm, ?_, by simp⟩
      intro e he
      rcases List.mem_cons.mp he with h | h
      · simp [h, isToolchainCall]
      · rcases List.mem_append.mp h with h2 | h2
        · exact hLt e h2
        · exact hRt e h2
    · split
      · refine ⟨Event.fileWrite (osPathJoin pd "pyproject.toml") toml ::
          ((licenseStep env pd lt).1 ++ (readmeStep env pd toml rp).1),
          (pipStep env).1, by simp, ?_, hPw⟩
        intro e he
        rcases List.mem_cons.mp he with h | h
        · simp [h, isToolchainCall]
        · rcases List.mem_append.mp h with h2 | h2
          · exact hLt e h2
          · exact hRt e h2
      · refine ⟨Event.fileWrite (osPathJoin pd "pyproject.toml") toml ::
          ((licenseStep env pd lt).1 ++ (readmeStep env pd toml rp).1),
          (pipStep env).1 ++ buildStep env pd ++
            [.print ("Package created successfully in: " ++ pd)],
          by simp, ?_, ?_⟩
        · intro e he
          rcases List.mem_cons.mp he with h | h
          · simp [h, isToolchainCall]
          · rcases List.mem_append.mp h with h2 | h2
            · exact hLt e h2
            · exact hRt e h2
        · intro e he
          rcases List.mem_append.mp he with h | h
          · rcases List.mem_append.mp h with h2 | h2
            · exact hPw e h2
            · exact hBw e h2
          · have : e = .print ("Package created successfully in: " ++ pd) := by
              simpa using h
            simp [this, isFileWrite]

/-- Claim C9: in every run, the sequence of written paths contains the
manifest path and has no duplicates: exactly one manifest write, at most
one LICENSE write, at most one README write, and no file is written a
second time within the run. -/
theorem C9_writes_unique (env : Env) (pd toml : String)
    (lt rp : Option String) :
    (writePaths (create_package env pd toml lt rp).events).Nodup ∧
    osPathJoin pd "pyproject.toml" ∈
      writePaths (create_package env pd toml lt rp).events := by
  have hL := licenseStep_writePaths env pd lt
  have hR := readmeStep_writePaths env pd toml rp
  have hP := pipStep_writePaths env
  have hB := buildStep_writePaths env pd
  have n1 := (LICENSE_ne_pyproject pd).symm
  have n2 := (README_ne_pyproject pd).symm
  have n3 := LICENSE_ne_README pd
  simp only [create_package]
  split
  · rcases hL with h | h <;>
      simp [writePaths_cons_write, writePaths_append, writePaths_nil, h, n1]
  · split
    · rcases hL with h | h <;> rcases hR with h2 | h2 <;>
        simp [writePaths_cons_write, writePaths_append, writePaths_nil,
              h, h2, n1, n2, n3]
    · split
      · rcases hL with h | h <;> rcases hR with h2 | h2 <;>
          simp [writePaths_cons_write, writePaths_append, writePaths_nil,
                h, h2, hP, n1, n2, n3]
      · rcases hL with h | h <;> rcases hR with h2 | h2 <;>
          simp [writePaths_cons_write, writePaths_append, writePaths_nil,
                writePaths_cons_print, h, h2, hP, hB, n1, n2, n3]

/-- A concrete environment in which `import pip` succeeds and `pip.main`
raises a `ValueError` — an exception the `except ImportError:` clause of
`create_package` does not catch. -/
def envPipBoom : Env := { envBase with pipMainExc := some (.valueError "pip blew up") }

/-- Counterexample to claim C5 as stated: the file-materialization steps
all succeed (the manifest and the synthesized README are written), the
failure arises in the best-effort toolchain-upgrade step, yet the
exception propagates out of `create_package` and the run does not report
success — the step catches only `ImportError`. -/
theorem C5_counterexample :
    writesTo (create_package envPipBoom "proj" "name = demo" none none).events
      (osPathJoin "proj" "pyproject.toml") = ["name = demo"] ∧
    writesTo (create_package envPipBoom "proj" "name = demo" none none).events
      (osPathJoin "proj" "README.md") = ["# demo"] ∧
    (create_package envPipBoom "proj" "name = demo" none none).error =
      some (.valueError "pip blew up") ∧
    Event.print "Package created successfully in: proj" ∉
      (create_package envPipBoom "proj" "name = demo" none none).events := by
  decide

/-- Claim C5 as amended: when the file-materialization steps succeed and
any exception `pip.main` raises is an `ImportError` (the only class the
toolchain-upgrade `try` block catches), no exception from the two
best-effort steps propagates and the run reports success — whatever the
`import pip` outcome, the package list and the `setup` outcome are. -/
theorem C5_best_effort_amended (env : Env) (pd toml : String)
    (lt rp : Option String)
    (hlic : (licenseStep env pd lt).2 = none)
    (hrd : (readmeStep env pd toml rp).2 = none)
    (hpip : ∀ e, env.pipMainExc = some e → e.isImportError = true) :
    (create_package env pd toml lt rp).error = none ∧
    Event.print ("Package created successfully in: " ++ pd) ∈
      (create_package env pd toml lt rp).events := by
  have hp : (pipStep env).2 = none := by
    simp only [pipStep]
    split
    · cases h : env.pipMainExc with
      | none => simp
      | some e => simp [hpip e h]
    · simp
  simp only [create_package, hlic, hrd, hp]
  exact ⟨by simp, by simp⟩

/-- Witness for the amended C5: a benign environment completes with no
propagated exception and prints the success message. -/
theorem C5_witness :
    (create_package envBase "proj" "name = demo" none none).error = none ∧
    Event.print ("Package created successfully in: " ++ "proj") ∈
      (create_package envBase "proj" "name = demo" none none).events :=
  C5_best_effort_amended envBase "proj" "name = demo" none none rfl rfl
    (fun e h => by simp [envBase] at h)
